import Mathlib

/-!
Verification development for the HuddleCamPTZ VISCA camera client
(`Huddlecam.js`).  The JavaScript class builds ASCII-hex command frames,
writes them to a serial transport, and decodes inquiry replies.  Frames are
modelled as `List Char` (the command string handed to `sendCommand`), reply
buffers as `List Nat` (bytes), and the stateful parts (the event-emitter
based reply correlation and the cached camera state) as explicit state
passing.
-/

/-- Convenience: the character list of a string literal. -/
def strL (s : String) : List Char := s.data

/-- Lowercase hex digit for a nibble, as produced by JavaScript
`Number.prototype.toString(16)` (0-9 then a-f). -/
def hexDigitChar (d : Nat) : Char :=
  if d < 10 then Char.ofNat (48 + d) else Char.ofNat (87 + d)

/-- Fuel-driven base-16 rendering of a natural number, the digit recursion
behind JavaScript `n.toString(16)` for non-negative integers: highest digit
first, no leading zeros, a single digit for `n < 16`. -/
def toString16Aux : Nat → Nat → List Char
  | 0, _ => []
  | fuel + 1, n =>
      if n < 16 then [hexDigitChar n]
      else toString16Aux fuel (n / 16) ++ [hexDigitChar (n % 16)]

/-- JavaScript `n.toString(16)` for a natural number. -/
def natToString16 (n : Nat) : List Char := toString16Aux (n + 1) n

/-- JavaScript `i.toString(16)` for an integer: negative numbers render as
a minus sign followed by the digits of the absolute value. -/
def intToString16 (i : Int) : List Char :=
  if i < 0 then '-' :: natToString16 (-i).toNat else natToString16 i.toNat

/-- JavaScript `String.prototype.padStart(n, c)`: prepend copies of `c`
until the length reaches `n` (no-op when already at least `n`). -/
def padStart (n : Nat) (c : Char) (s : List Char) : List Char :=
  List.replicate (n - s.length) c ++ s

/-- Numeric value of a hex digit character, as accepted by JavaScript
`parseInt(_, 16)` (both letter cases); non-hex characters map to 0 and are
never fed to this function by the modelled code paths. -/
def hexCharVal (c : Char) : Nat :=
  if 48 ≤ c.toNat ∧ c.toNat ≤ 57 then c.toNat - 48
  else if 97 ≤ c.toNat ∧ c.toNat ≤ 102 then c.toNat - 87
  else if 65 ≤ c.toNat ∧ c.toNat ≤ 70 then c.toNat - 55
  else 0

/-- Whether a character belongs to the hex alphabet accepted by Node's
`Buffer.from(_, 'hex')` decoder. -/
def isHexDigit (c : Char) : Bool :=
  if (48 ≤ c.toNat ∧ c.toNat ≤ 57) ∨ (97 ≤ c.toNat ∧ c.toNat ≤ 102) ∨
      (65 ≤ c.toNat ∧ c.toNat ≤ 70) then true else false

/-- JavaScript `parseInt(raw, 16)` on an all-hex-digit string: fold the
digit values left to right. -/
def parseIntHex (l : List Char) : Nat :=
  l.foldl (fun a c => 16 * a + hexCharVal c) 0

/-- The whitespace stripping `cmd.replace` performs in `sendCommand` before
hex-decoding the command string (frames only ever contain spaces). -/
def stripSpaces (l : List Char) : List Char := l.filter (fun c => c ≠ ' ')

/-- `Huddlecam.#toHex`: two's-complement encode a (16-bit) integer as 4
zero-padded hex digits — add `0x10000` when negative, render base 16, pad
to length 4. -/
def toHex (num : Int) : List Char :=
  padStart 4 '0' (intToString16 (if num < 0 then num + 65536 else num))

/-- Index-tracking core of `Huddlecam.#extractHex`. -/
def extractHexAux : Nat → List Char → List Char
  | _, [] => []
  | i, c :: t =>
      if i % 2 = 1 then c :: extractHexAux (i + 1) t else extractHexAux (i + 1) t

/-- `Huddlecam.#extractHex`: keep exactly the odd-indexed characters
(`chunk.split('').filter((_, idx) => idx % 2 === 1).join('')`). -/
def extractHex (chunk : List Char) : List Char := extractHexAux 0 chunk

/-- `Huddlecam.#parseHex`: parse 4 hex digits as unsigned, then reinterpret
as signed 16-bit two's-complement (`data >= 0x8000 ? data - 0x10000 : data`). -/
def parseHex (raw : List Char) : Int :=
  if (parseIntHex raw : Int) ≥ 32768 then (parseIntHex raw : Int) - 65536
  else (parseIntHex raw : Int)

/-- The nibble-per-byte wire expansion performed by frame assembly (each
logical hex digit becomes a `0X` byte, i.e. two characters `'0'` then the
digit) — the `expand` of the spec's round-trip law, and exactly what the
tilt half of `moveTo` and the reply payloads use. -/
def expand (s : List Char) : List Char := s.flatMap (fun c => ['0', c])

/- ===== Frame encoder (from the Huddlecam class methods) ===== -/

/-- Clamping chain of `Huddlecam.getPanSpeed`: `if(speed < 1) speed = 1;
if(speed > 18) speed = 18`. -/
def panSpeedClamp (speed : Int) : Int :=
  if speed < 1 then 1 else if speed > 18 then 18 else speed

/-- `Huddlecam.getPanSpeed`: clamp to [1,18] then render as 2 zero-padded
hex digits. -/
def getPanSpeed (speed : Int) : List Char :=
  padStart 2 '0' (intToString16 (panSpeedClamp speed))

/-- Clamping chain of `Huddlecam.getTiltSpeed`: bounds [1,14]. -/
def tiltSpeedClamp (speed : Int) : Int :=
  if speed < 1 then 1 else if speed > 14 then 14 else speed

/-- `Huddlecam.getTiltSpeed`: clamp to [1,14] then render as 2 zero-padded
hex digits. -/
def getTiltSpeed (speed : Int) : List Char :=
  padStart 2 '0' (intToString16 (tiltSpeedClamp speed))

/-- Clamping chain of `Huddlecam.cancelCommand`: `if(socket < 1) socket = 1;
if(socket > 2) socket = 2`. -/
def cancelClamp (socket : Int) : Int :=
  if socket < 1 then 1 else if socket > 2 then 2 else socket

/-- The command string built by `Huddlecam.cancelCommand`:
the template literal `8x 2${socketHex} FF` with
`socketHex = socket.toString(16).padStart(2, '0')` after clamping.  Note
the literal letter `x` of the template is part of the string handed to
`sendCommand`. -/
def cancelFrame (socket : Int) : List Char :=
  strL "8x 2" ++ padStart 2 '0' (intToString16 (cancelClamp socket)) ++ strL " FF"

/-- Clamping chain of `Huddlecam.exposureMode`: `if(mode < 0) mode = 0;
if(mode > 3) mode = 3`. -/
def exposureClamp (mode : Int) : Int :=
  if mode < 0 then 0 else if mode > 3 then 3 else mode

/-- The `switch(mode)` of `Huddlecam.exposureMode` choosing the mode nibble
(0 full-auto, 3 manual, A shutter-priority, B iris-priority; the default
branch leaves the nibble string empty). -/
def exposureNibble (m : Int) : List Char :=
  if m = 0 then ['0'] else if m = 1 then ['3'] else if m = 2 then ['A']
  else if m = 3 then ['B'] else []

/-- The command string built by `Huddlecam.exposureMode`:
`81 01 04 07 0${b} FF`. -/
def exposureFrame (mode : Int) : List Char :=
  strL "81 01 04 07 0" ++ exposureNibble (exposureClamp mode) ++ strL " FF"

/-- Fixed command strings of the parameterless operations. -/
def powerOnFrame : List Char := strL "81 01 04 00 02 FF"

def powerOffFrame : List Char := strL "81 01 04 00 03 FF"

def backlightOnFrame : List Char := strL "81 01 04 33 02 FF"

def backlightOffFrame : List Char := strL "81 01 04 33 03 FF"

def stopFrame : List Char := strL "81 01 06 01 00 00 03 03 FF"

def homeFrame : List Char := strL "81 01 06 04 FF"

def resetFrame : List Char := strL "81 01 06 05 FF"

/-- The `switch(direction)` of `Huddlecam.move`: each of the 8 directions
returns `sendCommand` on a frame `81 01 06 01 ${panSpeed} ${tiltSpeed} DD DD FF`;
any other direction falls through the switch and the method returns
JavaScript `undefined` without writing anything, modelled as `none`. -/
def moveFrame (direction ps ts : Int) : Option (List Char) :=
  if direction = 0 then
    some (strL "81 01 06 01 " ++ getPanSpeed ps ++ strL " " ++ getTiltSpeed ts ++ strL " 03 01 FF")
  else if direction = 1 then
    some (strL "81 01 06 01 " ++ getPanSpeed ps ++ strL " " ++ getTiltSpeed ts ++ strL " 03 02 FF")
  else if direction = 2 then
    some (strL "81 01 06 01 " ++ getPanSpeed ps ++ strL " " ++ getTiltSpeed ts ++ strL " 01 03 FF")
  else if direction = 3 then
    some (strL "81 01 06 01 " ++ getPanSpeed ps ++ strL " " ++ getTiltSpeed ts ++ strL " 02 03 FF")
  else if direction = 4 then
    some (strL "81 01 06 01 " ++ getPanSpeed ps ++ strL " " ++ getTiltSpeed ts ++ strL " 01 01 FF")
  else if direction = 5 then
    some (strL "81 01 06 01 " ++ getPanSpeed ps ++ strL " " ++ getTiltSpeed ts ++ strL " 02 01 FF")
  else if direction = 6 then
    some (strL "81 01 06 01 " ++ getPanSpeed ps ++ strL " " ++ getTiltSpeed ts ++ strL " 01 02 FF")
  else if direction = 7 then
    some (strL "81 01 06 01 " ++ getPanSpeed ps ++ strL " " ++ getTiltSpeed ts ++ strL " 02 02 FF")
  else none

/-- The command string built by `Huddlecam.moveTo`.  `Math.round` is the
identity on the integer inputs modelled here; `toHex` always returns at
least 4 characters, so the string indexings `panPos[i]` are total and the
`getD` defaults are never taken.  The assembly is transcribed character
for character from the source template literal — in particular the pan
half reads `panPos[0]` twice (positions 0 and 0, not 0 and 1), exactly as
the source line does, while the tilt half reads indices 0,1,2,3. -/
def moveToFrame (ps ts pan tilt : Int) (relative : Bool) : List Char :=
  strL "81 01 06 " ++ (if relative then strL "03" else strL "02") ++ strL " "
    ++ getPanSpeed ps ++ strL " " ++ getTiltSpeed ts
    ++ strL " 0" ++ [(toHex pan).getD 0 '0']
    ++ strL " 0" ++ [(toHex pan).getD 0 '0']
    ++ strL " 0" ++ [(toHex pan).getD 2 '0']
    ++ strL " 0" ++ [(toHex pan).getD 3 '0']
    ++ strL " 0" ++ [(toHex tilt).getD 0 '0']
    ++ strL " 0" ++ [(toHex tilt).getD 1 '0']
    ++ strL " 0" ++ [(toHex tilt).getD 2 '0']
    ++ strL " 0" ++ [(toHex tilt).getD 3 '0']
    ++ strL " FF"

/- ===== Response decoder (inquiry methods) ===== -/

/-- Node `Buffer.prototype.toString('hex')`: each byte becomes two
lowercase hex digits, high nibble first (`sendCommand` resolves inquiries
with this string of the reply buffer). -/
def bytesToHexChars (bs : List Nat) : List Char :=
  bs.flatMap (fun b => [hexDigitChar (b % 256 / 16), hexDigitChar (b % 16)])

/-- The `switch(res.response[5])` of `Huddlecam.powerInquiry`; any other
status character (or a reply shorter than 6 characters) falls through to
the `"Unknown"` return, so the operation still resolves successfully. -/
def powerInquiryDecode (resp : List Char) : String :=
  if resp[5]? = some '2' then "On"
  else if resp[5]? = some '3' then "Off (standby)"
  else if resp[5]? = some '4' then "Internal power circuit error"
  else "Unknown"

/-- The status-character switch of `Huddlecam.focusInquiry`. -/
def focusInquiryDecode (resp : List Char) : String :=
  if resp[5]? = some '2' then "Auto"
  else if resp[5]? = some '3' then "Manual"
  else "Unknown"

/-- The status-character switch of `Huddlecam.whiteBalanceInquiry`. -/
def whiteBalanceInquiryDecode (resp : List Char) : String :=
  if resp[5]? = some '0' then "Auto"
  else if resp[5]? = some '1' then "In Door"
  else if resp[5]? = some '2' then "Out Door"
  else if resp[5]? = some '3' then "One Push WB"
  else if resp[5]? = some '5' then "Manual"
  else "Unknown"

/-- The status-character switch of `Huddlecam.exposureInquiry`. -/
def exposureInquiryDecode (resp : List Char) : String :=
  if resp[5]? = some '0' then "Full Auto"
  else if resp[5]? = some '3' then "Manual"
  else if resp[5]? = some 'A' then "Shutter Priority"
  else if resp[5]? = some 'B' then "Iris Priority"
  else "Unknown"

/-- The status-character switch of `Huddlecam.backlightInquiry`. -/
def backlightInquiryDecode (resp : List Char) : String :=
  if resp[5]? = some '2' then "On"
  else if resp[5]? = some '3' then "Off"
  else "Unknown"

/-- The status-character switch of `Huddlecam.videoFormatInquiry`. -/
def videoFormatInquiryDecode (resp : List Char) : String :=
  if resp[5]? = some '1' then "1920x1080p/30"
  else if resp[5]? = some '2' then "1920x1080i/60"
  else if resp[5]? = some '3' then "1280x720p/60"
  else if resp[5]? = some '9' then "1920x1080p/25"
  else if resp[5]? = some 'A' then "1920x1080i/50"
  else if resp[5]? = some 'B' then "1280x720p/50"
  else if resp[5]? = some 'D' then ""
  else "Unknown"

/-- The status-character switch of `Huddlecam.colorFormatInquiry`. -/
def colorFormatInquiryDecode (resp : List Char) : String :=
  if resp[5]? = some '0' then "RGB"
  else if resp[5]? = some '1' then "YPbPr"
  else "Unknown"

/-- The payload handling of `Huddlecam.positionInquiry`: slice characters
4..12 (pan) and 12..20 (tilt) of the reply hex string, keep the
odd-indexed characters, and parse as signed 16-bit. -/
def positionInquiryDecode (resp : List Char) : Int × Int :=
  (parseHex (extractHex ((resp.drop 4).take 8)),
   parseHex (extractHex ((resp.drop 12).take 8)))

/- ===== Camera session state (the fields set in the constructor) ===== -/

/-- CameraStateSnapshot: the `this.*` state fields assigned in the
`Huddlecam` constructor. -/
structure CamState where
  power : String
  backlight : Bool
  position : Option (Int × Int)
  focus : String
  whiteBalance : String
  exposure : String
  shutterPos : Option Int
  irisPos : Option Int
  videoFormat : String
  panTiltPos : Option (Int × Int)
  colorFormat : String
deriving DecidableEq

/-- Constructor values of the state fields. -/
def initState : CamState :=
  { power := "Unknown", backlight := false, position := none,
    focus := "Unknown", whiteBalance := "Unknown", exposure := "Unknown",
    shutterPos := none, irisPos := none, videoFormat := "Unknown",
    panTiltPos := none, colorFormat := "Unknown" }

/-- State effect of `Huddlecam.powerInquiry` on a successful reply: the
method decodes and returns the status string; its body contains no
assignment to any `this.*` field, so the state passes through unchanged. -/
def powerInquiryRun (st : CamState) (reply : List Nat) : CamState × String :=
  (st, powerInquiryDecode (bytesToHexChars reply))

/-- State effect of `Huddlecam.focusInquiry` (no field assignment). -/
def focusInquiryRun (st : CamState) (reply : List Nat) : CamState × String :=
  (st, focusInquiryDecode (bytesToHexChars reply))

/-- State effect of `Huddlecam.whiteBalanceInquiry` (no field assignment). -/
def whiteBalanceInquiryRun (st : CamState) (reply : List Nat) : CamState × String :=
  (st, whiteBalanceInquiryDecode (bytesToHexChars reply))

/-- State effect of `Huddlecam.exposureInquiry` (no field assignment). -/
def exposureInquiryRun (st : CamState) (reply : List Nat) : CamState × String :=
  (st, exposureInquiryDecode (bytesToHexChars reply))

/-- State effect of `Huddlecam.backlightInquiry` (no field assignment). -/
def backlightInquiryRun (st : CamState) (reply : List Nat) : CamState × String :=
  (st, backlightInquiryDecode (bytesToHexChars reply))

/-- State effect of `Huddlecam.videoFormatInquiry` (no field assignment). -/
def videoFormatInquiryRun (st : CamState) (reply : List Nat) : CamState × String :=
  (st, videoFormatInquiryDecode (bytesToHexChars reply))

/-- State effect of `Huddlecam.colorFormatInquiry` (no field assignment). -/
def colorFormatInquiryRun (st : CamState) (reply : List Nat) : CamState × String :=
  (st, colorFormatInquiryDecode (bytesToHexChars reply))

/-- State effect of `Huddlecam.positionInquiry` (no field assignment). -/
def positionInquiryRun (st : CamState) (reply : List Nat) : CamState × (Int × Int) :=
  (st, positionInquiryDecode (bytesToHexChars reply))

/-- State effect of the state-changing command `Huddlecam.powerOn`: emit
the fixed frame, no field assignment. -/
def powerOnRun (st : CamState) : CamState × List Char := (st, powerOnFrame)

/-- State effect of `Huddlecam.powerOff` (no field assignment). -/
def powerOffRun (st : CamState) : CamState × List Char := (st, powerOffFrame)

/-- State effect of `Huddlecam.backlightOn` (no field assignment). -/
def backlightOnRun (st : CamState) : CamState × List Char := (st, backlightOnFrame)

/-- State effect of `Huddlecam.backlightOff` (no field assignment). -/
def backlightOffRun (st : CamState) : CamState × List Char := (st, backlightOffFrame)

/- ===== Reply correlator (the once-listener mechanism of sendCommand) ===== -/

/-- Correlator state of the engine: `pending` is the ordered list of armed
one-shot `data` listeners (one per in-flight inquiry, identified by a
submission index), `resolved` records which pending inquiry was resolved
with which reply hex string. -/
structure CorrState where
  pending : List Nat
  resolved : List (Nat × List Char)
deriving DecidableEq

/-- Submitting an inquiry (`sendCommand(cmd, true)`): the write callback
arms `this.once('data', ...)`, appending a one-shot listener for the next
`data` event.  Nothing in the code checks whether another inquiry is
already pending. -/
def submitInquiry (id : Nat) (s : CorrState) : CorrState :=
  { s with pending := s.pending ++ [id] }

/-- Arrival of one inbound `data` frame: the serial port's `data` event is
re-emitted (constructor) and the emitter invokes every currently armed
listener, each one-shot listener removing itself and resolving its pending
inquiry with this frame's hex string. -/
def dataEvent (f : List Char) (s : CorrState) : CorrState :=
  { pending := [], resolved := s.resolved ++ s.pending.map (fun i => (i, f)) }

/- ===== Coordinate codec lemmas ===== -/

lemma hexCharVal_hexDigitChar : ∀ d : Nat, d < 16 → hexCharVal (hexDigitChar d) = d := by
  decide

lemma foldl_hex_shift (l : List Char) :
    ∀ a : Nat, l.foldl (fun x c => 16 * x + hexCharVal c) a
      = a * 16 ^ l.length + l.foldl (fun x c => 16 * x + hexCharVal c) 0 := by
  induction l with
  | nil => intro a; simp
  | cons c t ih =>
      intro a
      simp only [List.foldl_cons, List.length_cons]
      rw [ih (16 * a + hexCharVal c), ih (16 * 0 + hexCharVal c)]
      ring

lemma parseIntHex_append_singleton (a : List Char) (c : Char) :
    parseIntHex (a ++ [c]) = 16 * parseIntHex a + hexCharVal c := by
  simp [parseIntHex, List.foldl_append]

lemma parseIntHex_replicate_zero (k : Nat) (s : List Char) :
    parseIntHex (List.replicate k '0' ++ s) = parseIntHex s := by
  induction k with
  | zero => simp
  | succ n ih =>
      have h : List.replicate (n + 1) '0' ++ s = '0' :: (List.replicate n '0' ++ s) := by
        simp [List.replicate_succ]
      rw [h]
      simpa [parseIntHex] using ih

lemma parseIntHex_padStart (n : Nat) (s : List Char) :
    parseIntHex (padStart n '0' s) = parseIntHex s := by
  simp [padStart, parseIntHex_replicate_zero]

lemma parseIntHex_toString16Aux :
    ∀ fuel n : Nat, n < fuel → parseIntHex (toString16Aux fuel n) = n := by
  intro fuel
  induction fuel with
  | zero => intro n h; omega
  | succ f ih =>
      intro n h
      by_cases hn : n < 16
      · simp [toString16Aux, hn, parseIntHex, hexCharVal_hexDigitChar n hn]
      · have hpos : 0 < n := by omega
        have hdiv : n / 16 < n := Nat.div_lt_self hpos (by norm_num)
        have hfuel : n / 16 < f := by omega
        simp only [toString16Aux, hn, if_false]
        rw [parseIntHex_append_singleton, ih (n / 16) hfuel,
          hexCharVal_hexDigitChar (n % 16) (Nat.mod_lt n (by norm_num))]
        omega

lemma parseIntHex_natToString16 (n : Nat) : parseIntHex (natToString16 n) = n :=
  parseIntHex_toString16Aux (n + 1) n (Nat.lt_succ_self n)

lemma extractHexAux_add_two (l : List Char) :
    ∀ i : Nat, extractHexAux (i + 2) l = extractHexAux i l := by
  induction l with
  | nil => intro i; rfl
  | cons c t ih =>
      intro i
      have hmod : (i + 2) % 2 = i % 2 := Nat.add_mod_right i 2
      by_cases h : i % 2 = 1
      · simp [extractHexAux, hmod, h]
        exact ih (i + 1)
      · simp [extractHexAux, hmod, h]
        exact ih (i + 1)

lemma extractHex_expand (s : List Char) : extractHex (expand s) = s := by
  induction s with
  | nil => rfl
  | cons c t ih =>
      have hexp : expand (c :: t) = '0' :: c :: expand t := by
        simp [expand]
      calc extractHex (expand (c :: t))
          = extractHexAux 0 ('0' :: c :: expand t) := by rw [extractHex, hexp]
        _ = extractHexAux 1 (c :: expand t) := by simp [extractHexAux]
        _ = c :: extractHexAux 2 (expand t) := by simp [extractHexAux]
        _ = c :: extractHexAux 0 (expand t) := by rw [extractHexAux_add_two (expand t) 0]
        _ = c :: t := by rw [show extractHexAux 0 (expand t) = extractHex (expand t) from rfl, ih]

lemma parseIntHex_pad_int (n : Int) (h0 : 0 ≤ n) :
    (parseIntHex (padStart 4 '0' (intToString16 n)) : Int) = n := by
  have hn : ¬ n < 0 := by omega
  simp only [intToString16, hn, if_false, parseIntHex_padStart,
    parseIntHex_natToString16]
  omega

/-- C3: round-trip law of the coordinate codec — for every signed 16-bit
integer `v`, decoding the nibble-expanded wire form of the encoded
coordinate reconstructs `v`:
`parseHex (extractHex (expand (toHex v))) = v`, negative values going
through two's-complement on both sides. -/
theorem coordinate_roundtrip (v : Int) (h1 : -32768 ≤ v) (h2 : v ≤ 32767) :
    parseHex (extractHex (expand (toHex v))) = v := by
  rw [extractHex_expand]
  by_cases hv : v < 0
  · have ht : toHex v = padStart 4 '0' (intToString16 (v + 65536)) := by
      simp [toHex, hv]
    have hparse : (parseIntHex (toHex v) : Int) = v + 65536 := by
      rw [ht]; exact parseIntHex_pad_int (v + 65536) (by omega)
    have hge : (parseIntHex (toHex v) : Int) ≥ 32768 := by omega
    simp only [parseHex, hge, if_pos]
    omega
  · have ht : toHex v = padStart 4 '0' (intToString16 v) := by
      simp [toHex, hv]
    have hparse : (parseIntHex (toHex v) : Int) = v := by
      rw [ht]; exact parseIntHex_pad_int v (by omega)
    have hlt : ¬ (parseIntHex (toHex v) : Int) ≥ 32768 := by omega
    simp only [parseHex, hlt, if_false]
    exact hparse

/-- C3 witness: the round trip evaluated at the concrete in-range
coordinate −400 (the DOWN tilt example of the source comments). -/
theorem coordinate_roundtrip_witness :
    parseHex (extractHex (expand (toHex (-400)))) = -400 :=
  coordinate_roundtrip (-400) (by norm_num) (by norm_num)

/- ===== Clamping lemmas ===== -/

lemma panSpeedClamp_eq (s : Int) : panSpeedClamp s = max 1 (min s 18) := by
  simp only [panSpeedClamp]
  split_ifs <;> omega

lemma tiltSpeedClamp_eq (s : Int) : tiltSpeedClamp s = max 1 (min s 14) := by
  simp only [tiltSpeedClamp]
  split_ifs <;> omega

lemma getPanSpeed_clamp (ps : Int) : getPanSpeed ps = getPanSpeed (max 1 (min ps 18)) := by
  have h : max 1 (min (max 1 (min ps 18)) 18) = max 1 (min ps 18) := by omega
  rw [getPanSpeed, getPanSpeed, panSpeedClamp_eq, panSpeedClamp_eq, h]

lemma getTiltSpeed_clamp (ts : Int) : getTiltSpeed ts = getTiltSpeed (max 1 (min ts 14)) := by
  have h : max 1 (min (max 1 (min ts 14)) 14) = max 1 (min ts 14) := by omega
  rw [getTiltSpeed, getTiltSpeed, tiltSpeedClamp_eq, tiltSpeedClamp_eq, h]

/- ===== Claim theorems ===== -/

/-- C1: the claim says the engine never resolves the second of two
back-to-back inquiries with the first reply frame.  The code does exactly
that: submitting inquiry 0 then inquiry 1 arms two one-shot listeners, and
the single next `data` event resolves both of them — including inquiry 1 —
with the same first reply frame. -/
theorem overlapping_inquiries_cross_resolved :
    (dataEvent (strL "905002ff") (submitInquiry 1 (submitInquiry 0 ⟨[], []⟩))).resolved
      = [(0, strL "905002ff"), (1, strL "905002ff")]
    ∧ (1, strL "905002ff") ∈
        (dataEvent (strL "905002ff") (submitInquiry 1 (submitInquiry 0 ⟨[], []⟩))).resolved := by
  exact ⟨rfl, by decide⟩

/-- C2: the claim says `moveTo` nibble-expands the four pan hex digits in
order.  At pan 2016 (hex 07e0) the emitted frame carries pan bytes
`00 00 0e 00` — digit 0 duplicated, digit 1 dropped — instead of the
in-order expansion `00 07 0e 00`; the tilt half (456, hex 01c8) is
expanded in order. -/
theorem moveTo_pan_nibble_bug :
    stripSpaces (moveToFrame 3 3 2016 456 false)
      = strL "810106020303" ++ strL "00000e00" ++ strL "00010c08" ++ strL "FF"
    ∧ expand (toHex 2016) = strL "00070e00"
    ∧ expand (toHex 456) = strL "00010c08"
    ∧ stripSpaces (moveToFrame 3 3 2016 456 false)
        ≠ strL "810106020303" ++ expand (toHex 2016) ++ expand (toHex 456) ++ strL "FF" := by
  exact ⟨by decide, by decide, by decide, by decide⟩

/-- C4: the claim says every frame handed to the transport encodes to an
even number of hex digits and ends with the 0xFF terminator.  The frame
built by `cancelCommand(1)` strips to the 7-character string `8x201FF`:
an odd count that contains the non-hex letter `x`, so Node's hex decoder
cannot produce a byte sequence ending in 0xFF from it. -/
theorem cancel_frame_malformed :
    stripSpaces (cancelFrame 1) = strL "8x201FF"
    ∧ (stripSpaces (cancelFrame 1)).length % 2 = 1
    ∧ isHexDigit 'x' = false
    ∧ 'x' ∈ stripSpaces (cancelFrame 1) := by
  exact ⟨by decide, by decide, by decide, by decide⟩

/-- C5 counterexample: a successful power inquiry whose reply decodes to
"On" leaves the session's `power` cache field at its constructor value
"Unknown" — the cache is not updated with the decoded value. -/
theorem snapshot_not_updated_cex :
    (powerInquiryRun initState [144, 80, 2, 255]).2 = "On"
    ∧ (powerInquiryRun initState [144, 80, 2, 255]).1.power = "Unknown"
    ∧ (powerInquiryRun initState [144, 80, 2, 255]).1.power
        ≠ (powerInquiryRun initState [144, 80, 2, 255]).2 := by
  exact ⟨by decide, rfl, by decide⟩

/-- C5 amended: no session operation — successful or not — mutates any
CameraStateSnapshot field; the fields keep their constructor values, every
modelled inquiry and state-changing command passing the state through
unchanged. -/
theorem snapshot_constant (st : CamState) (reply : List Nat) :
    (powerInquiryRun st reply).1 = st
    ∧ (focusInquiryRun st reply).1 = st
    ∧ (whiteBalanceInquiryRun st reply).1 = st
    ∧ (exposureInquiryRun st reply).1 = st
    ∧ (backlightInquiryRun st reply).1 = st
    ∧ (videoFormatInquiryRun st reply).1 = st
    ∧ (colorFormatInquiryRun st reply).1 = st
    ∧ (positionInquiryRun st reply).1 = st
    ∧ (powerOnRun st).1 = st
    ∧ (powerOffRun st).1 = st
    ∧ (backlightOnRun st).1 = st
    ∧ (backlightOffRun st).1 = st :=
  ⟨rfl, rfl, rfl, rfl, rfl, rfl, rfl, rfl, rfl, rfl, rfl, rfl⟩

lemma powerDecode_char (c0 c1 c2 c3 c4 x : Char) (r : List Char) :
    powerInquiryDecode (c0 :: c1 :: c2 :: c3 :: c4 :: x :: r)
      = (if x = '2' then "On" else if x = '3' then "Off (standby)"
         else if x = '4' then "Internal power circuit error" else "Unknown") := by
  have h5 : (c0 :: c1 :: c2 :: c3 :: c4 :: x :: r)[5]? = some x := by simp
  simp only [powerInquiryDecode, h5, Option.some.injEq]

lemma powerTable : ∀ m : Nat, m < 16 →
    (if hexDigitChar m = '2' then ("On" : String)
     else if hexDigitChar m = '3' then "Off (standby)"
     else if hexDigitChar m = '4' then "Internal power circuit error" else "Unknown")
      = (if m = 2 then "On" else if m = 3 then "Off (standby)"
         else if m = 4 then "Internal power circuit error" else "Unknown") := by
  decide

/-- C6: decoding a power inquiry reply `90 50 b FF` keys on the low nibble
of the third reply byte: 2 ↦ "On", 3 ↦ "Off (standby)", 4 ↦ "Internal
power circuit error", and every other value resolves to the explicit
"Unknown" string rather than a failure (the decoder is total). -/
theorem power_inquiry_decode_table (b : Nat) (_hb : b < 256) :
    powerInquiryDecode (bytesToHexChars [144, 80, b, 255])
      = (if b % 16 = 2 then "On" else if b % 16 = 3 then "Off (standby)"
         else if b % 16 = 4 then "Internal power circuit error" else "Unknown") := by
  have hlist : bytesToHexChars [144, 80, b, 255]
      = hexDigitChar (144 % 256 / 16) :: hexDigitChar (144 % 16)
        :: hexDigitChar (80 % 256 / 16) :: hexDigitChar (80 % 16)
        :: hexDigitChar (b % 256 / 16) :: hexDigitChar (b % 16)
        :: hexDigitChar (255 % 256 / 16) :: hexDigitChar (255 % 16) :: [] := rfl
  rw [hlist, powerDecode_char]
  exact powerTable (b % 16) (Nat.mod_lt b (by norm_num))

/-- C6 witness: a reply whose status byte is 0x02 decodes to "On". -/
theorem power_inquiry_decode_table_witness :
    powerInquiryDecode (bytesToHexChars [144, 80, 2, 255]) = "On" := by
  have h := power_inquiry_decode_table 2 (by norm_num)
  simpa using h

/-- C7: the frame emitted by `moveTo` carries the pan speed clamped to
[1,18] and the tilt speed clamped to [1,14], each rendered as 2
zero-padded hex digits; concretely, pan speed 30 renders as the clamped
value 18 (hex 12) and tilt speed 20 as the clamped value 14 (hex 0e),
visible in the emitted frame. -/
theorem moveTo_speed_clamping :
    (∀ ps ts pan tilt : Int, ∀ rel : Bool,
        moveToFrame ps ts pan tilt rel
          = moveToFrame (max 1 (min ps 18)) (max 1 (min ts 14)) pan tilt rel)
    ∧ getPanSpeed 30 = getPanSpeed 18
    ∧ getPanSpeed 18 = strL "12"
    ∧ getTiltSpeed 20 = getTiltSpeed 14
    ∧ getTiltSpeed 14 = strL "0e"
    ∧ (stripSpaces (moveToFrame 30 20 0 0 false)).take 12 = strL "81010602120e" := by
  refine ⟨?_, by decide, by decide, by decide, by decide, by decide⟩
  intro ps ts pan tilt rel
  simp only [moveToFrame]
  rw [getPanSpeed_clamp ps, getTiltSpeed_clamp ts]

/-- C8: out-of-range exposure modes clamp to the nearest valid mode:
every mode ≤ 0 emits the full-auto frame (mode nibble 0) and every mode
≥ 3 emits the iris-priority frame (mode nibble B); in particular
`exposureMode(-1)` matches `exposureMode(0)` and `exposureMode(99)`
matches `exposureMode(3)`. -/
theorem exposure_clamping :
    (∀ m : Int, m ≤ 0 → exposureFrame m = exposureFrame 0)
    ∧ (∀ m : Int, 3 ≤ m → exposureFrame m = exposureFrame 3)
    ∧ exposureFrame (-1) = exposureFrame 0
    ∧ exposureFrame 99 = exposureFrame 3
    ∧ stripSpaces (exposureFrame 0) = strL "8101040700FF"
    ∧ stripSpaces (exposureFrame 3) = strL "810104070BFF" := by
  have h0 : ∀ m : Int, m ≤ 0 → exposureClamp m = exposureClamp 0 := by
    intro m hm
    simp only [exposureClamp]
    split_ifs <;> omega
  have h3 : ∀ m : Int, 3 ≤ m → exposureClamp m = exposureClamp 3 := by
    intro m hm
    simp only [exposureClamp]
    split_ifs <;> omega
  refine ⟨?_, ?_, by decide, by decide, by decide, by decide⟩
  · intro m hm
    rw [exposureFrame, exposureFrame, h0 m hm]
  · intro m hm
    rw [exposureFrame, exposureFrame, h3 m hm]

/-- C8 witness: the clamping implications applied at the concrete
out-of-range modes −5 and 42. -/
theorem exposure_clamping_witness :
    exposureFrame (-5) = exposureFrame 0 ∧ exposureFrame 42 = exposureFrame 3 :=
  ⟨exposure_clamping.1 (-5) (by norm_num), exposure_clamping.2.1 42 (by norm_num)⟩

/-- C9: `cancelCommand` clamps its socket argument into [1,2] before
encoding, raising no error: every socket emits the same frame as its
clamped value; in particular socket 0 emits the socket-1 frame and socket
5 emits the socket-2 frame. -/
theorem cancel_socket_clamping :
    (∀ s : Int, cancelFrame s = cancelFrame (max 1 (min s 2)))
    ∧ cancelFrame 0 = cancelFrame 1
    ∧ cancelFrame 5 = cancelFrame 2 := by
  have hc : ∀ s : Int, cancelClamp s = max 1 (min s 2) := by
    intro s
    simp only [cancelClamp]
    split_ifs <;> omega
  refine ⟨?_, by decide, by decide⟩
  intro s
  have h2 : max 1 (min (max 1 (min s 2)) 2) = max 1 (min s 2) := by omega
  rw [cancelFrame, cancelFrame, hc, hc, h2]

/-- C10: `move` writes no frame for any direction outside 0..7 (the switch
falls through and the method returns `undefined`, modelled as `none`), and
for each of the 8 valid directions it writes exactly one frame. -/
theorem move_direction_guard (d ps ts : Int) :
    ((d < 0 ∨ 7 < d) → moveFrame d ps ts = none)
    ∧ (0 ≤ d → d ≤ 7 → ∃ f, moveFrame d ps ts = some f) := by
  constructor
  · intro hd
    simp only [moveFrame]
    split_ifs <;> first | rfl | omega
  · intro hlo hhi
    interval_cases d <;> exact ⟨_, rfl⟩

/-- C10 witness: direction 9 writes nothing; direction 0 writes a frame. -/
theorem move_direction_guard_witness :
    moveFrame 9 5 3 = none ∧ ∃ f, moveFrame 0 5 3 = some f :=
  ⟨(move_direction_guard 9 5 3).1 (Or.inr (by norm_num)),
   (move_direction_guard 0 5 3).2 (by norm_num) (by norm_num)⟩
